import Mathlib

/-!
Shallow embedding of the registration workflow and user lookup of the
server-predeploy backend. The three `POST /api/register` handlers
(`src/index.js`, `src/unnamed/part_000`, `src/unnamed/part_001`) and the
`GET /api/users/:id` handler (`src/unnamed/part_000`) are modelled as pure
functions of the parsed request body and of the outcomes the external
Supabase calls would return if issued; each handler returns the HTTP
response together with the ordered list of external calls it actually made.
Supabase client methods report API failures as error values in their result
object rather than by throwing, so the external outcomes are plain data.
-/

namespace ServerPredeploy

/-- Character class of the JS regex fragment `[^\s@]` used by the e-mail
check: any character that is neither `@` nor one of the ASCII whitespace
characters matched by the JS `\s` class. -/
def isEmailChar (c : Char) : Bool :=
  !(c = '@' || c = ' ' || c = '\t' || c = '\n' || c = '\r' || c = '\x0b' || c = '\x0c')

/-- Recognizer for the anchored e-mail regex of the register handlers,
`/^[^\s@]+@[^\s@]+\.[^\s@]+$/`: the string matches iff it decomposes as
`A ++ "@" ++ B ++ "." ++ C` with `A`, `B`, `C` nonempty strings of
`[^\s@]` characters (the `@` sits at position `i`, the separating `.` at
position `j`; every other character is in the class, which also admits
further dots inside `A`, `B` and `C`, exactly as the regex does). -/
def emailRegexTest (s : String) : Bool :=
  let cs := s.toList
  let n := cs.length
  (List.range n).any fun i =>
    (List.range n).any fun j =>
      decide (0 < i) && decide (i + 2 ≤ j) && decide (j + 2 ≤ n) &&
      (cs.getD i ' ' == '@') && (cs.getD j ' ' == '.') &&
      ((List.range n).all fun k => k == i || isEmailChar (cs.getD k ' '))

/-- Hexadecimal digit, the class `[0-9a-fA-F]` of the UUID regex. -/
def isHexChar (c : Char) : Bool :=
  (decide ('0' ≤ c) && decide (c ≤ '9')) ||
  (decide ('a' ≤ c) && decide (c ≤ 'f')) ||
  (decide ('A' ≤ c) && decide (c ≤ 'F'))

/-- The `isValidUUID` helper of `src/unnamed/part_000`: the anchored regex
`/^[0-9a-fA-F]{8}-[0-9a-fA-F]{4}-[0-9a-fA-F]{4}-[0-9a-fA-F]{4}-[0-9a-fA-F]{12}$/`,
i.e. 36 characters with dashes at positions 8, 13, 18 and 23 and hex
digits everywhere else. -/
def isValidUUID (s : String) : Bool :=
  let cs := s.toList
  cs.length == 36 &&
  ((List.range 36).all fun k =>
    if k == 8 || k == 13 || k == 18 || k == 23 then cs.getD k ' ' == '-'
    else isHexChar (cs.getD k ' '))

/-- JS `toLowerCase` on the simple one-to-one case mapping. -/
def jsToLower (s : String) : String := s.map Char.toLower

/-- The normalized e-mail `email.toLowerCase().trim()` sent to Supabase and
stored in the profile row. -/
def normalizeEmail (s : String) : String := (jsToLower s).trim

/-- JS falsiness of a possibly-undefined string field: `!email` holds when
the field is `undefined` (absent from the body) or the empty string. -/
def jsFalsyStr : Option String → Bool
  | none => true
  | some s => s.isEmpty

/-- JS template-literal rendering of a possibly-undefined string value, as
in `` `User ${name} successfully registered!` ``. -/
def jsShow : Option String → String
  | none => "undefined"
  | some s => s

/-- A parsed `req.body` object for `POST /api/register`. Fields absent from
the JSON body are `none` (JS `undefined`). -/
structure ReqBody where
  name : Option String := none
  email : Option String := none
  password : Option String := none
  industry : Option String := none
  country : Option String := none
  phone : Option String := none
  deriving DecidableEq

/-- JS truthiness of an object value: every object is truthy, so the guard
`!req.body` is false whenever `req.body` holds a parsed body object. -/
def jsTruthyObj (_ : ReqBody) : Bool := true

/-- The user record inside `authData` returned by `supabase.auth.signUp`. -/
structure AuthUser where
  id : String
  deriving DecidableEq

/-- Outcome of `supabase.auth.signUp`: either `authData` with a user, or an
`authError` carrying a message and a code. -/
inductive AuthResult where
  | ok (user : AuthUser)
  | err (message : String) (code : String)
  deriving DecidableEq

/-- Outcome of the `supabase.from("users").insert` call: `dbError` is either
absent or carries a message. -/
inductive DbResult where
  | ok
  | err (message : String)
  deriving DecidableEq

/-- Outcome of `supabase.auth.admin.deleteUser`; the handlers discard this
result object entirely. -/
inductive DeleteResult where
  | ok
  | err (message : String)
  deriving DecidableEq

/-- The row inserted into the `users` table (the `created_at` wall-clock
timestamp is outside the model). -/
structure ProfileRow where
  id : String
  name : Option String
  email : String
  industry : Option String
  country : Option String
  phone : Option String
  deriving DecidableEq

/-- The profile row the handlers build from the body and the auth user id. -/
def profileRowOf (b : ReqBody) (uid : String) : ProfileRow :=
  { id := uid
    name := b.name
    email := normalizeEmail (b.email.getD "")
    industry := b.industry
    country := b.country
    phone := b.phone }

/-- An external Supabase call issued by a register handler. -/
inductive ExtCall where
  | signUp (email : String) (password : Option String)
  | insert (row : ProfileRow)
  | deleteUser (id : String)
  deriving DecidableEq

/-- Whether an external call is the compensating `deleteUser`. -/
def isDeleteCall : ExtCall → Bool
  | .deleteUser _ => true
  | _ => false

/-- Whether an external call is the profile `insert`. -/
def isInsertCall : ExtCall → Bool
  | .insert _ => true
  | _ => false

/-- Whether an external call is the auth `signUp`. -/
def isSignUpCall : ExtCall → Bool
  | .signUp _ _ => true
  | _ => false

/-- JSON response of a register handler: the HTTP status plus the body
fields; `none` marks a key that is absent from the JSON (JS `undefined`
values are dropped by serialization). -/
structure Response where
  status : Nat
  success : Bool
  message : String
  code : Option String := none
  field : Option String := none
  receivedValue : Option String := none
  userId : Option String := none
  error : Option String := none
  deriving DecidableEq

/-- Message of the `TypeError` raised by destructuring a nullish
`req.body` at the top of a register handler. -/
def destructureMsg : String := "Cannot destructure property name of req.body as it is undefined"

/-- The `Request body is missing` response of the `src/index.js` and
`src/unnamed/part_001` register handlers. -/
def bodyMissingResponse : Response :=
  { status := 200, success := false, message := "Request body is missing" }

/-- The e-mail validation branch of a register handler is not taken: the
field is present, nonempty, and matches the regex (the negation of the
guard `!email || !emailRegex.test(email)`). -/
def emailAccepted (e : Option String) : Bool :=
  !jsFalsyStr e && emailRegexTest (e.getD "")

/-- The `POST /api/register` handler of `src/index.js` as a function of the
parsed request body (`none` when `req.body` is nullish) and of the outcomes
the three external calls would return if issued. `dev` is whether
`NODE_ENV === "development"`. Returns the response and the ordered list of
external calls actually made. The destructuring
`const { name, email, password, industry, country, phone } = req.body`
throws a `TypeError` on a nullish body, so that case is answered by the
catch block with the generic 500 response before any branch runs. -/
def registerIndex (body : Option ReqBody) (auth : AuthResult) (db : DbResult)
    (del : DeleteResult) (dev : Bool) : Response × List ExtCall :=
  match body with
  | none =>
      ({ status := 500, success := false, message := "Internal server error",
         error := if dev then some destructureMsg else none }, [])
  | some b =>
      if !jsTruthyObj b then
        (bodyMissingResponse, [])
      else if jsFalsyStr b.email then
        ({ status := 200, success := false, message := "Invalid email format",
           field := some "email", receivedValue := b.email }, [])
      else if !emailRegexTest (b.email.getD "") then
        ({ status := 200, success := false, message := "Invalid email format",
           field := some "email", receivedValue := b.email }, [])
      else
        match auth with
        | .err msg code =>
            ({ status := 200, success := false, message := msg, code := some code },
             [ExtCall.signUp (normalizeEmail (b.email.getD "")) b.password])
        | .ok user =>
            match db with
            | .err dbMsg =>
                ({ status := 200, success := false,
                   message := "Failed to create user profile",
                   error := if dev then some dbMsg else none },
                 [ExtCall.signUp (normalizeEmail (b.email.getD "")) b.password,
                  ExtCall.insert (profileRowOf b user.id),
                  ExtCall.deleteUser user.id])
            | .ok =>
                let _ := del
                ({ status := 200, success := true,
                   message := "User " ++ jsShow b.name ++ " successfully registered!",
                   userId := some user.id },
                 [ExtCall.signUp (normalizeEmail (b.email.getD "")) b.password,
                  ExtCall.insert (profileRowOf b user.id)])

/-- The `POST /api/register` handler of `src/unnamed/part_001`, transcribed
from its own source; its logic and statuses coincide with `src/index.js`
(all failure responses carry status 200, the catch block answers 500). -/
def registerPart001 (body : Option ReqBody) (auth : AuthResult) (db : DbResult)
    (del : DeleteResult) (dev : Bool) : Response × List ExtCall :=
  match body with
  | none =>
      ({ status := 500, success := false, message := "Internal server error",
         error := if dev then some destructureMsg else none }, [])
  | some b =>
      if !jsTruthyObj b then
        (bodyMissingResponse, [])
      else if jsFalsyStr b.email then
        ({ status := 200, success := false, message := "Invalid email format",
           field := some "email", receivedValue := b.email }, [])
      else if !emailRegexTest (b.email.getD "") then
        ({ status := 200, success := false, message := "Invalid email format",
           field := some "email", receivedValue := b.email }, [])
      else
        match auth with
        | .err msg code =>
            ({ status := 200, success := false, message := msg, code := some code },
             [ExtCall.signUp (normalizeEmail (b.email.getD "")) b.password])
        | .ok user =>
            match db with
            | .err dbMsg =>
                ({ status := 200, success := false,
                   message := "Failed to create user profile",
                   error := if dev then some dbMsg else none },
                 [ExtCall.signUp (normalizeEmail (b.email.getD "")) b.password,
                  ExtCall.insert (profileRowOf b user.id),
                  ExtCall.deleteUser user.id])
            | .ok =>
                let _ := del
                ({ status := 200, success := true,
                   message := "User " ++ jsShow b.name ++ " successfully registered!",
                   userId := some user.id },
                 [ExtCall.signUp (normalizeEmail (b.email.getD "")) b.password,
                  ExtCall.insert (profileRowOf b user.id)])

/-- The `POST /api/register` handler of `src/unnamed/part_000`. Identical
workflow, but this variant answers status 400 on body-missing, validation,
auth and persistence failures (success stays 200, the catch block 500). -/
def registerPart000 (body : Option ReqBody) (auth : AuthResult) (db : DbResult)
    (del : DeleteResult) (dev : Bool) : Response × List ExtCall :=
  match body with
  | none =>
      ({ status := 500, success := false, message := "Internal server error",
         error := if dev then some destructureMsg else none }, [])
  | some b =>
      if !jsTruthyObj b then
        ({ status := 400, success := false, message := "Request body is missing" }, [])
      else if jsFalsyStr b.email then
        ({ status := 400, success := false, message := "Invalid email format",
           field := some "email", receivedValue := b.email }, [])
      else if !emailRegexTest (b.email.getD "") then
        ({ status := 400, success := false, message := "Invalid email format",
           field := some "email", receivedValue := b.email }, [])
      else
        match auth with
        | .err msg code =>
            ({ status := 400, success := false, message := msg, code := some code },
             [ExtCall.signUp (normalizeEmail (b.email.getD "")) b.password])
        | .ok user =>
            match db with
            | .err dbMsg =>
                ({ status := 400, success := false,
                   message := "Failed to create user profile",
                   error := if dev then some dbMsg else none },
                 [ExtCall.signUp (normalizeEmail (b.email.getD "")) b.password,
                  ExtCall.insert (profileRowOf b user.id),
                  ExtCall.deleteUser user.id])
            | .ok =>
                let _ := del
                ({ status := 200, success := true,
                   message := "User " ++ jsShow b.name ++ " successfully registered!",
                   userId := some user.id },
                 [ExtCall.signUp (normalizeEmail (b.email.getD "")) b.password,
                  ExtCall.insert (profileRowOf b user.id)])

/-- Outcome of the `supabase.from("users").select` call of the lookup
route. -/
inductive SelectResult where
  | ok (rows : List ProfileRow)
  | err (message : String)
  deriving DecidableEq

/-- JSON response of the `GET /api/users/:id` handler. -/
structure LookupResponse where
  status : Nat
  success : Bool
  message : Option String := none
  data : Option (List ProfileRow) := none
  deriving DecidableEq

/-- An external datastore call issued by the lookup handler. -/
inductive LookupCall where
  | select (id : String)
  deriving DecidableEq

/-- The `GET /api/users/:id` handler of `src/unnamed/part_000`: validate the
UUID shape of the path parameter, then select the matching rows. -/
def getUserById (id : String) (sel : SelectResult) : LookupResponse × List LookupCall :=
  if !isValidUUID id then
    ({ status := 400, success := false, message := some "Invalid UUID" }, [])
  else
    match sel with
    | .err msg =>
        ({ status := 500, success := false, message := some msg }, [LookupCall.select id])
    | .ok rows =>
        ({ status := 200, success := true, data := some rows }, [LookupCall.select id])

/-- Whether a register response is exactly the `Request body is missing`
response (status 200, success false, that message, no other fields). -/
def isBodyMissingResp (r : Response) : Bool := r == bodyMissingResponse

/-- Claim C1: when the auth signup succeeds and the profile insert fails,
the handler invokes the compensating delete exactly once, with exactly the
identity returned by the auth signup, and reports the persistence-stage
failure (success false, message `Failed to create user profile`). -/
theorem register_db_failure_compensates (b : ReqBody) (u : AuthUser) (m : String)
    (del : DeleteResult) (dev : Bool) (h : emailAccepted b.email = true) :
    (registerIndex (some b) (AuthResult.ok u) (DbResult.err m) del dev).1.success = false ∧
    (registerIndex (some b) (AuthResult.ok u) (DbResult.err m) del dev).1.message =
      "Failed to create user profile" ∧
    (registerIndex (some b) (AuthResult.ok u) (DbResult.err m) del dev).2.filter isDeleteCall =
      [ExtCall.deleteUser u.id] := by
  simp [emailAccepted, Bool.and_eq_true, Bool.not_eq_true'] at h
  obtain ⟨h1, h2⟩ := h
  simp [registerIndex, jsTruthyObj, h1, h2, List.filter, isDeleteCall]

/-- Witness for C1 at the concrete failing-insert scenario of the spec. -/
theorem register_db_failure_compensates_witness :
    emailAccepted (some "ann@x.com") = true ∧
    (registerIndex (some { name := some "Ann", email := some "ann@x.com", password := some "secret1" })
        (AuthResult.ok ⟨"U2"⟩) (DbResult.err "insert failed") DeleteResult.ok false).2.filter isDeleteCall =
      [ExtCall.deleteUser "U2"] :=
  ⟨by decide,
   (register_db_failure_compensates
      { name := some "Ann", email := some "ann@x.com", password := some "secret1" }
      ⟨"U2"⟩ "insert failed" DeleteResult.ok false (by decide)).2.2⟩

/-- Claim C2: when the e-mail field is missing or fails the regex, the
handler answers the input-stage failure (success false, message
`Invalid email format`) and issues no external call at all. -/
theorem register_invalid_email_no_calls (b : ReqBody) (auth : AuthResult) (db : DbResult)
    (del : DeleteResult) (dev : Bool) (h : emailAccepted b.email = false) :
    (registerIndex (some b) auth db del dev).1.success = false ∧
    (registerIndex (some b) auth db del dev).1.message = "Invalid email format" ∧
    (registerIndex (some b) auth db del dev).2 = [] := by
  cases hf : jsFalsyStr b.email with
  | true => simp [registerIndex, jsTruthyObj, hf]
  | false =>
      have ht : emailRegexTest (b.email.getD "") = false := by
        simp [emailAccepted, hf] at h; exact h
      simp [registerIndex, jsTruthyObj, hf, ht]

/-- Witness for C2 at the malformed-address scenario of the spec. -/
theorem register_invalid_email_no_calls_witness :
    emailAccepted (some "bad-email") = false ∧
    (registerIndex (some { email := some "bad-email" })
        (AuthResult.ok ⟨"U1"⟩) DbResult.ok DeleteResult.ok false).2 = [] :=
  ⟨by decide,
   (register_invalid_email_no_calls { email := some "bad-email" }
      (AuthResult.ok ⟨"U1"⟩) DbResult.ok DeleteResult.ok false (by decide)).2.2⟩

/-- Claim C3: when the auth provider rejects the signup, the handler answers
the auth-stage failure carrying the provider message and code, and neither
the profile insert nor the compensating delete is ever issued. -/
theorem register_auth_failure_no_insert (b : ReqBody) (msg code : String)
    (db : DbResult) (del : DeleteResult) (dev : Bool) (h : emailAccepted b.email = true) :
    (registerIndex (some b) (AuthResult.err msg code) db del dev).1 =
      { status := 200, success := false, message := msg, code := some code } ∧
    (registerIndex (some b) (AuthResult.err msg code) db del dev).2.filter isInsertCall = [] ∧
    (registerIndex (some b) (AuthResult.err msg code) db del dev).2.filter isDeleteCall = [] := by
  simp [emailAccepted, Bool.and_eq_true, Bool.not_eq_true'] at h
  obtain ⟨h1, h2⟩ := h
  simp [registerIndex, jsTruthyObj, h1, h2, List.filter, isInsertCall, isDeleteCall]

/-- Witness for C3 at a concrete duplicate-email rejection. -/
theorem register_auth_failure_no_insert_witness :
    emailAccepted (some "ann@x.com") = true ∧
    (registerIndex (some { name := some "Ann", email := some "ann@x.com", password := some "secret1" })
        (AuthResult.err "User already registered" "user_already_exists")
        DbResult.ok DeleteResult.ok false).2.filter isInsertCall = [] :=
  ⟨by decide,
   (register_auth_failure_no_insert
      { name := some "Ann", email := some "ann@x.com", password := some "secret1" }
      "User already registered" "user_already_exists"
      DbResult.ok DeleteResult.ok false (by decide)).2.1⟩

/-- Counterexample to claim C4: a request with a well-formed e-mail but an
absent name and an empty password (shorter than any positive minimum
length) is not rejected at the input stage; the handler calls the auth
provider and completes successfully. -/
theorem register_validation_counterexample :
    (registerIndex (some { name := none, email := some "a@b.c", password := some "" })
        (AuthResult.ok ⟨"U1"⟩) DbResult.ok DeleteResult.ok false).1.success = true ∧
    ((registerIndex (some { name := none, email := some "a@b.c", password := some "" })
        (AuthResult.ok ⟨"U1"⟩) DbResult.ok DeleteResult.ok false).2.filter isSignUpCall).length = 1 := by
  decide

/-- Claim C4 as amended: input validation checks only the e-mail condition;
the auth provider is invoked exactly when the e-mail check passes,
regardless of password length or name presence, and an e-mail failure
makes no external call. -/
theorem register_signup_iff_email_passes (b : ReqBody) (auth : AuthResult) (db : DbResult)
    (del : DeleteResult) (dev : Bool) :
    ((registerIndex (some b) auth db del dev).2.filter isSignUpCall).length =
      (if emailAccepted b.email then 1 else 0) ∧
    ((registerIndex (some b) auth db del dev).2.length =
      (if emailAccepted b.email then (registerIndex (some b) auth db del dev).2.length else 0)) := by
  cases hf : jsFalsyStr b.email with
  | true => simp [registerIndex, jsTruthyObj, emailAccepted, hf]
  | false =>
      cases ht : emailRegexTest (b.email.getD "") with
      | false => simp [registerIndex, jsTruthyObj, emailAccepted, hf, ht]
      | true =>
          cases auth with
          | err m c =>
              simp [registerIndex, jsTruthyObj, emailAccepted, hf, ht, List.filter, isSignUpCall]
          | ok u =>
              cases db with
              | err m =>
                  simp [registerIndex, jsTruthyObj, emailAccepted, hf, ht, List.filter,
                    isSignUpCall, isInsertCall, isDeleteCall]
              | ok =>
                  simp [registerIndex, jsTruthyObj, emailAccepted, hf, ht, List.filter,
                    isSignUpCall, isInsertCall]

/-- Claim C5: when the profile insert fails, the response reported to the
caller is the same whether the compensating delete succeeds or fails —
the delete outcome is discarded — and that response is the
persistence-stage failure. -/
theorem register_compensation_failure_invisible (b : ReqBody) (u : AuthUser)
    (m e : String) (dev : Bool) (h : emailAccepted b.email = true) :
    (registerIndex (some b) (AuthResult.ok u) (DbResult.err m) (DeleteResult.err e) dev).1 =
      (registerIndex (some b) (AuthResult.ok u) (DbResult.err m) DeleteResult.ok dev).1 ∧
    (registerIndex (some b) (AuthResult.ok u) (DbResult.err m) (DeleteResult.err e) dev).1.success =
      false ∧
    (registerIndex (some b) (AuthResult.ok u) (DbResult.err m) (DeleteResult.err e) dev).1.message =
      "Failed to create user profile" := by
  simp [emailAccepted, Bool.and_eq_true, Bool.not_eq_true'] at h
  obtain ⟨h1, h2⟩ := h
  simp [registerIndex, jsTruthyObj, h1, h2]

/-- Witness for C5: failing delete after a failing insert still reports the
persistence failure. -/
theorem register_compensation_failure_invisible_witness :
    emailAccepted (some "ann@x.com") = true ∧
    (registerIndex (some { name := some "Ann", email := some "ann@x.com", password := some "secret1" })
        (AuthResult.ok ⟨"U2"⟩) (DbResult.err "insert failed") (DeleteResult.err "delete failed")
        false).1.message = "Failed to create user profile" :=
  ⟨by decide,
   (register_compensation_failure_invisible
      { name := some "Ann", email := some "ann@x.com", password := some "secret1" }
      ⟨"U2"⟩ "insert failed" "delete failed" false (by decide)).2.2⟩

/-- Claim C6: when validation passes, the auth signup returns identity `u`
and the profile insert succeeds, the handler answers success true, userId
equal to `u.id`, and the confirmation message. -/
theorem register_success_response (b : ReqBody) (u : AuthUser) (del : DeleteResult)
    (dev : Bool) (h : emailAccepted b.email = true) :
    (registerIndex (some b) (AuthResult.ok u) DbResult.ok del dev).1 =
      { status := 200, success := true,
        message := "User " ++ jsShow b.name ++ " successfully registered!",
        userId := some u.id } := by
  simp [emailAccepted, Bool.and_eq_true, Bool.not_eq_true'] at h
  obtain ⟨h1, h2⟩ := h
  simp [registerIndex, jsTruthyObj, h1, h2]

/-- Witness for C6 at the end-to-end success scenario of the spec. -/
theorem register_success_response_witness :
    emailAccepted (some "ann@x.com") = true ∧
    (registerIndex (some { name := some "Ann", email := some "ann@x.com", password := some "secret1" })
        (AuthResult.ok ⟨"U1"⟩) DbResult.ok DeleteResult.ok false).1 =
      { status := 200, success := true,
        message := "User " ++ jsShow (some "Ann") ++ " successfully registered!",
        userId := some "U1" } :=
  ⟨by decide,
   register_success_response
      { name := some "Ann", email := some "ann@x.com", password := some "secret1" }
      ⟨"U1"⟩ DeleteResult.ok false (by decide)⟩

/-- Claim C7: a lookup whose identifier does not have UUID shape answers
status 400, success false, message `Invalid UUID`, and never issues the
datastore select. -/
theorem lookup_invalid_uuid_no_select (id : String) (sel : SelectResult)
    (h : isValidUUID id = false) :
    getUserById id sel =
      ({ status := 400, success := false, message := some "Invalid UUID" }, []) := by
  simp [getUserById, h]

/-- Witness for C7 at a concrete malformed identifier. -/
theorem lookup_invalid_uuid_no_select_witness :
    isValidUUID "not-a-uuid" = false ∧
    getUserById "not-a-uuid" (SelectResult.ok []) =
      ({ status := 400, success := false, message := some "Invalid UUID" }, []) :=
  ⟨by decide, lookup_invalid_uuid_no_select "not-a-uuid" (SelectResult.ok []) (by decide)⟩

/-- Counterexample to claim C8: no entry variant answers status 200 on
every failure outcome once unexpected exceptions are included — the
`src/index.js` and `src/unnamed/part_001` handlers answer 500 from the
catch block when the body is absent, and the `src/unnamed/part_000`
handler answers 400 on a validation failure. -/
theorem register_status_200_counterexample :
    (registerIndex none (AuthResult.ok ⟨"U1"⟩) DbResult.ok DeleteResult.ok false).1.status = 500 ∧
    (registerPart001 none (AuthResult.ok ⟨"U1"⟩) DbResult.ok DeleteResult.ok false).1.status = 500 ∧
    (registerPart000 (some { email := some "bad-email" })
        (AuthResult.ok ⟨"U1"⟩) DbResult.ok DeleteResult.ok false).1.status = 400 := by
  decide

/-- Claim C8 as amended: in the `src/index.js` and `src/unnamed/part_001`
variants, every request whose body parses — validation failure, auth
failure, persistence failure and success alike — is answered with HTTP
status 200, so the caller must branch on the success field; only the
catch-block path (absent body) answers 500. -/
theorem register_parsed_body_always_200 (b : ReqBody) (auth : AuthResult) (db : DbResult)
    (del : DeleteResult) (dev : Bool) :
    (registerIndex (some b) auth db del dev).1.status = 200 ∧
    (registerPart001 (some b) auth db del dev).1.status = 200 := by
  cases hf : jsFalsyStr b.email <;>
    cases ht : emailRegexTest (b.email.getD "") <;>
    cases auth <;> cases db <;>
    simp [registerIndex, registerPart001, jsTruthyObj, hf, ht]

/-- Claim C9: a request with an absent (nullish) body is answered by the
generic catch response (status 500, `Internal server error`) because the
destructuring of `req.body` throws first, and no execution of the handler
ever returns the `Request body is missing` response — that branch is
unreachable since a parsed body object is always truthy. -/
theorem register_body_missing_unreachable :
    (∀ auth db del dev, (registerIndex none auth db del dev).1 =
      { status := 500, success := false, message := "Internal server error",
        error := if dev then some destructureMsg else none }) ∧
    (∀ body auth db del dev,
      isBodyMissingResp (registerIndex body auth db del dev).1 = false) := by
  constructor
  · intro auth db del dev
    rfl
  · intro body auth db del dev
    rw [isBodyMissingResp, beq_eq_false_iff_ne]
    cases body with
    | none =>
        simp [registerIndex, bodyMissingResponse, Response.mk.injEq]
    | some b =>
        cases hf : jsFalsyStr b.email <;>
          cases ht : emailRegexTest (b.email.getD "") <;>
          cases auth <;> cases db <;>
          simp [registerIndex, jsTruthyObj, hf, ht, bodyMissingResponse, Response.mk.injEq]

/-- Claim C10: the register handlers of `src/index.js` and
`src/unnamed/part_001` are behaviorally equivalent — for every request body
and every combination of signup, insert and delete outcomes they produce
the same response and the same external calls. -/
theorem register_index_part001_equivalent (body : Option ReqBody) (auth : AuthResult)
    (db : DbResult) (del : DeleteResult) (dev : Bool) :
    registerIndex body auth db del dev = registerPart001 body auth db del dev := by
  cases body with
  | none => rfl
  | some b =>
      cases hf : jsFalsyStr b.email <;>
        cases ht : emailRegexTest (b.email.getD "") <;>
        cases auth <;> cases db <;>
        simp [registerIndex, registerPart001, jsTruthyObj, hf, ht]

end ServerPredeploy
